import Mathlib

/-!
Shallow embedding of the SlovakBench evaluation core
(`src/evaluation/answer_validator.py` and `src/evaluation/runner.py`),
with theorems settling the frozen claims about it.

Modelling conventions:
* Python strings are Lean `String`s; slicing, `strip`, `split`, `upper`,
  `lower`, `casefold` are modelled character-wise over `List Char`.
  `str.upper`/`str.lower`/`str.casefold` are modelled by `Char.toUpper` /
  `Char.toLower` (adequate for the ASCII repertoire the claims exercise;
  `casefold` agrees with lowercasing there).
* `unicodedata` NFKD + combining-mark removal is modelled by a character
  table covering the Slovak/Latin accented letters.
* Python floats (`cost`, the 0.20 error-rate threshold) are modelled
  exactly in `ℚ`; wall-clock latencies are not modelled.
* The model endpoint is an oracle `Nat → AttemptOutcome` giving the
  outcome of each invocation attempt of `_evaluate_question`.
-/

namespace SlovakBench

/-! ### String primitives (Python semantics) -/

/-- Whitespace characters recognised by Python `str.strip()` / `str.split()`
(ASCII repertoire). -/
def pyIsSpace (c : Char) : Bool :=
  c = ' ' || c = '\t' || c = '\n' || c = '\r' || c = Char.ofNat 11 || c = Char.ofNat 12

/-- The list `l` with leading and trailing whitespace removed. -/
def stripChars (l : List Char) : List Char :=
  ((l.dropWhile pyIsSpace).reverse.dropWhile pyIsSpace).reverse

/-- Python `str.strip()`. -/
def pyStrip (s : String) : String :=
  String.mk (stripChars s.toList)

/-- Python `str.lower()` (and `str.casefold()` on this repertoire). -/
def pyLower (s : String) : String :=
  String.mk (s.toList.map Char.toLower)

/-- Python `str.upper()`, character-wise. -/
def pyUpper (s : String) : String :=
  String.mk (s.toList.map Char.toUpper)

/-- Python `s[:n]` (slicing by code points). -/
def pyTake (n : Nat) (s : String) : String :=
  String.mk (s.toList.take n)

/-- Helper for Python `str.split()`: accumulate the current word (reversed)
while scanning. -/
def splitWsAux : List Char → List Char → List (List Char)
  | [], acc => if acc.isEmpty then [] else [acc.reverse]
  | c :: cs, acc =>
    if pyIsSpace c then
      if acc.isEmpty then splitWsAux cs [] else acc.reverse :: splitWsAux cs []
    else
      splitWsAux cs (c :: acc)

/-- Python `str.split()` with no argument: split on whitespace runs,
discarding empty fields. -/
def pySplitWs (s : String) : List String :=
  (splitWsAux s.toList []).map String.mk

/-- Python substring test `pat in s`. -/
def strContainsSub (s pat : String) : Bool :=
  (List.range (s.toList.length + 1)).any (fun i => pat.toList.isPrefixOf (s.toList.drop i))

/-- Word characters of the regex class `\w` (ASCII/Latin repertoire). -/
def isWordChar (c : Char) : Bool :=
  c.isAlphanum || c = '_'

/-- Character table modelling `unicodedata.normalize("NFKD", ·)` followed by
removal of combining marks, for the Slovak/Latin accented letters: each
accented letter decomposes to its base letter. Other characters are fixed. -/
def stripDiacritic (c : Char) : Char :=
  if c ∈ ['á', 'ä', 'à', 'â'] then 'a'
  else if c ∈ ['Á', 'Ä', 'À', 'Â'] then 'A'
  else if c = 'č' then 'c' else if c = 'Č' then 'C'
  else if c = 'ď' then 'd' else if c = 'Ď' then 'D'
  else if c ∈ ['é', 'è', 'ê', 'ë'] then 'e'
  else if c ∈ ['É', 'È', 'Ê', 'Ë'] then 'E'
  else if c ∈ ['í', 'î', 'ï'] then 'i'
  else if c ∈ ['Í', 'Î', 'Ï'] then 'I'
  else if c = 'ĺ' then 'l' else if c = 'Ĺ' then 'L'
  else if c = 'ľ' then 'l' else if c = 'Ľ' then 'L'
  else if c = 'ň' then 'n' else if c = 'Ň' then 'N'
  else if c ∈ ['ó', 'ô', 'ö', 'ò'] then 'o'
  else if c ∈ ['Ó', 'Ô', 'Ö', 'Ò'] then 'O'
  else if c = 'ŕ' then 'r' else if c = 'Ŕ' then 'R'
  else if c = 'š' then 's' else if c = 'Š' then 'S'
  else if c = 'ť' then 't' else if c = 'Ť' then 'T'
  else if c ∈ ['ú', 'ů', 'ü', 'ù'] then 'u'
  else if c ∈ ['Ú', 'Ů', 'Ü', 'Ù'] then 'U'
  else if c = 'ý' then 'y' else if c = 'Ý' then 'Y'
  else if c = 'ž' then 'z' else if c = 'Ž' then 'Z'
  else c

/-! ### `answer_validator.py` -/

/-- One branch of the `for step in steps` body of `normalize`
(`answer_validator.py`, lines 9-24): the transform selected by `step`,
an unrecognised step name leaving the text unchanged. -/
def applyStep (step : String) (text : String) : String :=
  if step = "trim" then pyStrip text
  else if step = "casefold" then pyLower text
  else if step = "collapse_ws" then String.intercalate " " (pySplitWs text)
  else if step = "remove_punct" then
    String.mk (text.toList.filter (fun c => isWordChar c || pyIsSpace c))
  else if step = "remove_diacritics" then String.mk (text.toList.map stripDiacritic)
  else if step = "numeric_only" then String.mk (text.toList.filter Char.isDigit)
  else if step = "normalize_dashes" then
    String.mk (text.toList.map (fun c => if c ∈ ['–', '—', '−', '‐', '‑'] then '-' else c))
  else text

/-- Function `normalize(text, steps)` of `answer_validator.py`: apply the steps
left to right. -/
def normalize (text : String) (steps : List String) : String :=
  steps.foldl (fun t s => applyStep s t) text

/-- Function `validate_mcq(answer, correct)` of `answer_validator.py`:
`answer.strip().upper()[:1] == correct.upper()`. -/
def validate_mcq (answer correct : String) : Bool :=
  pyTake 1 (pyUpper (pyStrip answer)) = pyUpper correct

/-- Function `validate_short_text(answer, accepted, steps)` of `answer_validator.py`:
the normalized answer is a member of the normalized accepted list. -/
def validate_short_text (answer : String) (accepted : List String) (steps : List String) : Bool :=
  (accepted.map (fun a => normalize a steps)).contains (normalize answer steps)

/-! ### `runner.py`: questions and response parsing -/

/-- The fields of a dataset question used by the runner (`q["id"]`,
`q["task_type"]`, and the `answer` object's `correct_option`, `accepted`
and optional `normalize` entries). -/
structure Question where
  id : String
  task_type : String
  correct_option : String
  accepted : List String
  normSteps : Option (List String)
deriving DecidableEq, Repr

/-- Method `EvaluationRunner.parse_response` (`runner.py`, lines 213-225): strip the
response; for MCQ return the first character of the uppercased response that
is one of A/B/C/D, else the first character uppercased, else `""`;
otherwise return the stripped response. -/
def parse_response (response : String) (task_type : String) : String :=
  let r := pyStrip response
  if task_type = "mcq" then
    match (r.toList.map Char.toUpper).find? (fun c => c ∈ ['A', 'B', 'C', 'D']) with
    | some c => String.mk [c]
    | none =>
      match r.toList with
      | [] => ""
      | c :: _ => String.mk [Char.toUpper c]
  else r

/-- Method `EvaluationRunner.validate_answer` (`runner.py`, lines 227-237): dispatch
on task type; short text uses the question's `normalize` list, defaulting to
`["trim", "casefold"]`. -/
def validate_answer (q : Question) (model_answer : String) : Bool :=
  if q.task_type = "mcq" then validate_mcq model_answer q.correct_option
  else validate_short_text model_answer q.accepted (q.normSteps.getD ["trim", "casefold"])

/-- The `correct_answer` recorded for logging (`runner.py`, lines 244-247). -/
def correctAnswerOf (q : Question) : String :=
  if q.task_type = "mcq" then q.correct_option
  else String.intercalate ", " (q.accepted.take 3)

/-! ### `runner.py`: the dispatch loop of `_evaluate_question` -/

/-- Outcome of one invocation attempt of the model client inside
`_evaluate_question`: a successful response (content and cost), an
`asyncio.TimeoutError`, or an exception with its type name and message
(`str(e) or type(e).__name__`, already merged into the message). -/
inductive AttemptOutcome where
  | success (content : String) (cost : ℚ)
  | timeout
  | failure (errType : String) (errStr : String)
deriving DecidableEq, Repr

/-- The retryability test of `_evaluate_question` (`runner.py`, line 279):
`"429" in err_str or "500" in err_str or "503" in err_str or
"rate limit" in err_str.lower()`. -/
def is_retryable (errStr : String) : Bool :=
  strContainsSub errStr "429" || strContainsSub errStr "500" ||
    strContainsSub errStr "503" || strContainsSub (pyLower errStr) "rate limit"

/-- The error-message construction of `_evaluate_question`
(`runner.py`, lines 289-301). -/
def classifyError (errType errStr : String) : String :=
  let raw_snippet := pyTake 250 errStr
  if strContainsSub errStr "429" then errType ++ ": Rate limit (429) | " ++ raw_snippet
  else if strContainsSub errStr "500" || strContainsSub errStr "502" ||
      strContainsSub errStr "503" then errType ++ ": Server error (5xx) | " ++ raw_snippet
  else if strContainsSub errStr "Connection" || strContainsSub errStr "connection" then
    errType ++ ": Connection failed | " ++ raw_snippet
  else if strContainsSub (pyLower errStr) "timeout" then
    errType ++ ": Timed out | " ++ raw_snippet
  else errType ++ ": " ++ pyTake 250 errStr

/-- Observable outcome of the retry loop of `_evaluate_question`: how many
invocation attempts were made, the `asyncio.sleep` durations between
consecutive attempts, and the `raw_response` / `cost` / `error` values the
loop leaves behind. -/
structure DispatchTrace where
  attempts : Nat
  sleeps : List Nat
  raw_response : String
  cost : ℚ
  error : Option String
deriving DecidableEq, Repr

/-- The `for attempt in range(max_retries + 1)` loop of `_evaluate_question`
(`runner.py`, lines 251-303). `attempt` is the current 0-based attempt index
and `retriesLeft = max_retries - attempt`, so `retriesLeft > 0` iff
`attempt < max_retries`. A success or a timeout breaks out of the loop; a
retryable exception with retries left sleeps `2 ^ attempt` seconds and
continues; any other exception records a classified error and breaks.
`cost` is `0.0` unless a response was obtained. -/
def retryLoop (orc : Nat → AttemptOutcome) (timeoutSecs : Nat) :
    Nat → Nat → DispatchTrace
  | attempt, 0 =>
    match orc attempt with
    | .success content cost => ⟨1, [], content, cost, none⟩
    | .timeout => ⟨1, [], "", 0, some ("Timeout after " ++ toString timeoutSecs ++ "s")⟩
    | .failure errType errStr => ⟨1, [], "", 0, some (classifyError errType errStr)⟩
  | attempt, retries + 1 =>
    match orc attempt with
    | .success content cost => ⟨1, [], content, cost, none⟩
    | .timeout => ⟨1, [], "", 0, some ("Timeout after " ++ toString timeoutSecs ++ "s")⟩
    | .failure errType errStr =>
      if is_retryable errStr then
        let rest := retryLoop orc timeoutSecs (attempt + 1) retries
        ⟨rest.attempts + 1, 2 ^ attempt :: rest.sleeps, rest.raw_response, rest.cost, rest.error⟩
      else ⟨1, [], "", 0, some (classifyError errType errStr)⟩

/-- Constant `max_retries = 3` (`runner.py`, line 252). -/
def max_retries : Nat := 3

/-- The whole retry loop as entered by `_evaluate_question`: attempt 0 with
all `max_retries` retries available. -/
def dispatchTrace (orc : Nat → AttemptOutcome) (timeoutSecs : Nat) : DispatchTrace :=
  retryLoop orc timeoutSecs 0 max_retries

/-- The per-question result record (`QuestionResult` dataclass,
`runner.py`, lines 36-47; `latency_ms` is wall-clock time and is not
modelled). -/
structure QuestionResult where
  question_id : String
  task_type : String
  model_answer : String
  correct_answer : String
  is_correct : Bool
  cost_usd : ℚ
  raw_response : String
  error : Option String
deriving DecidableEq, Repr

/-- Method `EvaluationRunner._evaluate_question` (`runner.py`, lines 239-318) for a
question `q` whose model-client attempts behave as `orc`: run the retry
loop, parse the raw response, validate it only when no error occurred, and
assemble the `QuestionResult`. -/
def evaluate_question (q : Question) (orc : Nat → AttemptOutcome)
    (timeoutSecs : Nat) : QuestionResult :=
  let tr := dispatchTrace orc timeoutSecs
  let model_answer := parse_response tr.raw_response q.task_type
  { question_id := q.id
    task_type := q.task_type
    model_answer := model_answer
    correct_answer := correctAnswerOf q
    is_correct := if tr.error.isSome then false else validate_answer q model_answer
    cost_usd := tr.cost
    raw_response := tr.raw_response
    error := tr.error }

/-! ### `runner.py`: result assembly of `run` and the result sink -/

/-- The ids already present in a loaded checkpoint (the keys of the
`completed_results` dict of `run`). -/
def checkpointIds (ckpt : List QuestionResult) : List String :=
  ckpt.map QuestionResult.question_id

/-- List `pending_questions` of `run` (`runner.py`, line 339): the dataset
questions whose id is not in the loaded checkpoint. -/
def pendingOf (questions : List Question) (ckptIds : List String) : List Question :=
  questions.filter (fun q => !(ckptIds.contains q.id))

/-- The multiset of results a successfully completed `run` assembles
(`runner.py`, lines 332-378), written in the canonical order: the resumed
checkpoint results first, then one result per pending question. Concurrent
completion may interleave the pending part in any order; theorems quantify
over a permutation where that matters. -/
def runAssembledResults (questions : List Question) (ckpt : List QuestionResult)
    (evalF : Question → QuestionResult) : List QuestionResult :=
  ckpt ++ (pendingOf questions (checkpointIds ckpt)).map evalF

/-- The fields of the `EvaluationResult` dataclass (`runner.py`, lines
50-65) that the persistence claims depend on (the derived float metrics are
not modelled). -/
structure EvaluationResult where
  model_name : String
  dataset_path : String
  total_questions : Nat
  correct_count : Nat
  error_count : Nat
  results : List QuestionResult
deriving DecidableEq, Repr

/-- Constant `MAX_ERROR_RATE = 0.20` (`runner.py`, line 32), modelled exactly. -/
def MAX_ERROR_RATE : ℚ := 1 / 5

/-- Expression `model_name.split("/")[-1]`, the model short-name used for checkpoint
and result filenames (`runner.py`, lines 101 and 441). -/
def modelShortName (model_name : String) : String :=
  (model_name.splitOn "/").getLastD ""

/-- The file name `save_results` writes to (`runner.py`, line 442). -/
def resultFileName (model_name : String) : String :=
  modelShortName model_name ++ ".json"

/-- The error-rate guard of `save_results` (`runner.py`, lines 432-436):
refuse when `total_questions > 0` and `error_count / total_questions`
exceeds `MAX_ERROR_RATE`. -/
def saveRefused (result : EvaluationResult) : Bool :=
  decide (0 < result.total_questions) &&
    decide ((result.error_count : ℚ) / (result.total_questions : ℚ) > MAX_ERROR_RATE)

/-- The output directory, modelled as a map from file name to the
`EvaluationResult` value serialised into that file. -/
def ResultDir : Type := String → Option EvaluationResult

/-- Function `save_results(result, output_dir)` (`runner.py`, lines 429-448): either
refuse (returning `none` and leaving the directory untouched) or write
`result` under the model short-name, overwriting any previous file of that
name, and return the path written. -/
def save_results (result : EvaluationResult) (dir : ResultDir) :
    Option String × ResultDir :=
  if saveRefused result then (none, dir)
  else
    (some (resultFileName result.model_name),
      fun name => if name = resultFileName result.model_name then some result else dir name)

/-! ### Claim-side definitions (for refinement comparisons) and helpers -/

/-- The retryability condition asserted by the spec (claim C1), written from
the spec's words: message contains `429`, `500`, `502`, `503`, or
`rate limit` case-insensitively. For comparison with `is_retryable`. -/
def claimedRetryable (errStr : String) : Bool :=
  strContainsSub errStr "429" || strContainsSub errStr "500" ||
    strContainsSub errStr "502" || strContainsSub errStr "503" ||
    strContainsSub (pyLower errStr) "rate limit"

/-- The MCQ parse asserted by the spec (claim C9), written from the spec's
words: the first character of the response that is case-insensitively one of
A/B/C/D, uppercased; otherwise the response's first character uppercased, or
`""` for an empty response. For comparison with `parse_response`. -/
def mcqParseClaimed (response : String) : String :=
  match response.toList.find? (fun c => Char.toUpper c ∈ ['A', 'B', 'C', 'D']) with
  | some c => String.mk [Char.toUpper c]
  | none =>
    match response.toList with
    | [] => ""
    | c :: _ => String.mk [Char.toUpper c]

/-- The step names `normalize` recognises (`answer_validator.py`,
lines 10-24). -/
def recognizedStepNames : List String :=
  ["trim", "casefold", "collapse_ws", "remove_punct", "remove_diacritics",
    "numeric_only", "normalize_dashes"]

/-- Decimal value of a digit string. -/
def digitsToNat (l : List Char) : Nat :=
  l.foldl (fun n c => n * 10 + (c.toNat - 48)) 0

/-- Numeric value of a question id (`int(question_id)`), non-numeric ids
ordered last with key 9999 — the sort key the repository uses when it does
sort result lists (`scripts/resort_json.py`, `main.py`). -/
def qidNum (s : String) : Nat :=
  if !s.toList.isEmpty && s.toList.all Char.isDigit then digitsToNat s.toList else 9999

/-- Ascending order of a result list by numeric question id. -/
def sortedByQid : List QuestionResult → Bool
  | [] => true
  | [_] => true
  | a :: b :: t => decide (qidNum a.question_id ≤ qidNum b.question_id) && sortedByQid (b :: t)

/-- The question ids of a dataset. -/
def questionIds (qs : List Question) : List String :=
  qs.map Question.id

/-- The question ids of a result list. -/
def resultIds (rs : List QuestionResult) : List String :=
  rs.map QuestionResult.question_id

/-! ### Concrete instances used in witnesses and counterexamples -/

/-- An MCQ question with id `1`. -/
def exampleQ1 : Question := ⟨"1", "mcq", "A", [], none⟩

/-- An MCQ question with id `2`. -/
def exampleQ2 : Question := ⟨"2", "mcq", "B", [], none⟩

/-- A checkpointed result for question `2`. -/
def exampleCkptR2 : QuestionResult := ⟨"2", "mcq", "B", "B", true, 0, "B", none⟩

/-- An evaluator whose model client always answers `A` at zero cost. -/
def exampleEval (q : Question) : QuestionResult :=
  evaluate_question q (fun _ => .success "A" 0) 300

/-- An empty output directory. -/
def emptyDir : ResultDir := fun _ => none

/-- An evaluation result with 100 questions and 21 errors. -/
def er100e21 : EvaluationResult := ⟨"prov/modelx", "data.json", 100, 50, 21, []⟩

/-- An evaluation result with 100 questions and 20 errors. -/
def er100e20 : EvaluationResult := ⟨"prov/modelx", "data.json", 100, 50, 20, []⟩

/-- The assembled results of a resumed run on `[exampleQ1, exampleQ2]` whose
checkpoint already contains question `2`. -/
def exampleAssembled : List QuestionResult :=
  runAssembledResults [exampleQ1, exampleQ2] [exampleCkptR2] exampleEval

/-- An error-free completed evaluation over `exampleAssembled`. -/
def exampleER : EvaluationResult :=
  ⟨"prov/modelx", "data.json", 2, 2, 0, exampleAssembled⟩

/-! ### Helper lemmas -/

lemma applyStep_of_not_recognized {n : String} (hn : n ∉ recognizedStepNames)
    (t : String) : applyStep n t = t := by
  simp only [recognizedStepNames, List.mem_cons, List.not_mem_nil, or_false, not_or] at hn
  obtain ⟨h1, h2, h3, h4, h5, h6, h7⟩ := hn
  simp [applyStep, h1, h2, h3, h4, h5, h6, h7]

lemma one_le_retryLoop_attempts (orc : Nat → AttemptOutcome) (tmo : Nat) :
    ∀ r a, 1 ≤ (retryLoop orc tmo a r).attempts := by
  intro r
  induction r with
  | zero => intro a; cases h : orc a <;> simp [retryLoop, h]
  | succ r ih =>
    intro a
    cases h : orc a with
    | success c k => simp [retryLoop, h]
    | timeout => simp [retryLoop, h]
    | failure t m =>
      by_cases hr : is_retryable m <;> simp [retryLoop, h, hr]

lemma retryLoop_attempts_le (orc : Nat → AttemptOutcome) (tmo : Nat) :
    ∀ r a, (retryLoop orc tmo a r).attempts ≤ r + 1 := by
  intro r
  induction r with
  | zero => intro a; cases h : orc a <;> simp [retryLoop, h]
  | succ r ih =>
    intro a
    cases h : orc a with
    | success c k => simp [retryLoop, h]
    | timeout => simp [retryLoop, h]
    | failure t m =>
      by_cases hr : is_retryable m <;> simp [retryLoop, h, hr]
      exact ih (a + 1)

/-! ### Claim theorems -/

/-- Claim C10: the normalization pipeline is a left fold of its steps —
`normalize t (s1 ++ s2) = normalize (normalize t s1) s2`, the empty step
list is the identity, and a single unrecognised step name acts as the
identity. -/
theorem c10_normalize_fold (t : String) (s1 s2 : List String) (n : String)
    (hn : n ∉ recognizedStepNames) :
    normalize t (s1 ++ s2) = normalize (normalize t s1) s2
      ∧ normalize t [] = t ∧ normalize t [n] = t := by
  refine ⟨?_, rfl, ?_⟩
  · simp [normalize, List.foldl_append]
  · simpa [normalize] using applyStep_of_not_recognized hn t

/-- Witness for C10 at `t = "  A "`, `s1 = ["trim"]`, `s2 = ["casefold"]`,
`n = "bogus"`. -/
theorem c10_normalize_fold_witness :
    normalize "  A " (["trim"] ++ ["casefold"]) =
        normalize (normalize "  A " ["trim"]) ["casefold"]
      ∧ normalize "  A " [] = "  A " ∧ normalize "  A " ["bogus"] = "  A " :=
  c10_normalize_fold "  A " ["trim"] ["casefold"] "bogus" (by decide)

/-- Claim C3, counterexample: the steps named `collapse_whitespace` and
`remove_punctuation` are not recognised by `normalize` — both act as the
identity on inputs the claim says they must change. -/
theorem c3_step_names_counterexample :
    normalize "a  b" ["collapse_whitespace"] = "a  b"
      ∧ normalize "a,b" ["remove_punctuation"] = "a,b"
      ∧ ("a  b" : String) ≠ "a b" ∧ ("a,b" : String) ≠ "ab" := by
  refine ⟨rfl, rfl, by decide, by decide⟩

/-- Claim C3, amended: the whitespace-collapsing and punctuation-removing
steps are recognised under the names `collapse_ws` and `remove_punct`
(which are genuine transforms, not the identity), steps are applied in
listed order, and the names `collapse_whitespace` and `remove_punctuation`
are unrecognised and act as the identity. -/
theorem c3_step_names_amended :
    (∀ t, normalize t ["collapse_whitespace"] = t)
      ∧ (∀ t, normalize t ["remove_punctuation"] = t)
      ∧ (∀ t a b, normalize t [a, b] = normalize (normalize t [a]) [b])
      ∧ normalize "a \t b" ["collapse_ws"] = "a b"
      ∧ normalize "a \t b" ["collapse_ws"] ≠ "a \t b"
      ∧ normalize "a, b!" ["remove_punct"] = "a b"
      ∧ normalize "a, b!" ["remove_punct"] ≠ "a, b!" := by
  refine ⟨?_, ?_, ?_, by decide, by decide, by decide, by decide⟩
  · intro t; simpa [normalize] using applyStep_of_not_recognized (by decide) t
  · intro t; simpa [normalize] using applyStep_of_not_recognized (by decide) t
  · intro t a b; rfl

/-- Claim C8: short-text validation holds iff the normalized model answer
equals the normalization of some accepted string (whole-string equality
under the same pipeline); an empty accepted list yields `false`;
`validate_short_text "  Pes " ["pes"]` is `true` with steps
`["trim", "casefold"]` and `false` with no steps. -/
theorem c8_short_text_validation :
    (∀ ans accepted steps, validate_short_text ans accepted steps = true ↔
        ∃ a ∈ accepted, normalize ans steps = normalize a steps)
      ∧ (∀ ans steps, validate_short_text ans [] steps = false)
      ∧ validate_short_text "  Pes " ["pes"] ["trim", "casefold"] = true
      ∧ validate_short_text "  Pes " ["pes"] [] = false := by
  refine ⟨?_, ?_, by decide, by decide⟩
  · intro ans accepted steps
    simp [validate_short_text, List.contains, List.elem_iff, List.mem_map, eq_comm]
  · intro ans steps
    simp [validate_short_text]

/-- Claim C9, counterexample: for the response `"  x"` the code strips the
response before falling back to its first character, returning `"X"`,
while the claim's description (first character of the raw response,
uppercased) yields `" "`. -/
theorem c9_mcq_parse_counterexample :
    parse_response "  x" "mcq" = "X" ∧ mcqParseClaimed "  x" = " "
      ∧ (("X" : String) ≠ " ") := by
  refine ⟨rfl, rfl, by decide⟩

/-- Claim C9, amended: the response is first stripped of surrounding
whitespace; the parsed MCQ answer is then exactly as the claim describes,
applied to the stripped response: the first character case-insensitively in
{A,B,C,D}, uppercased, else the stripped response's first character
uppercased, else `""`. -/
theorem c9_mcq_parse_amended (s : String) :
    parse_response s "mcq" = mcqParseClaimed (pyStrip s) := by
  simp only [parse_response, mcqParseClaimed, if_pos rfl, List.find?_map]
  cases h : (pyStrip s).toList.find?
      ((fun c => decide (c ∈ ['A', 'B', 'C', 'D'])) ∘ Char.toUpper) with
  | none =>
    have h' : (pyStrip s).toList.find? (fun c => decide (Char.toUpper c ∈ ['A', 'B', 'C', 'D'])) = none := h
    rw [h']
    simp
  | some c =>
    have h' : (pyStrip s).toList.find? (fun c => decide (Char.toUpper c ∈ ['A', 'B', 'C', 'D'])) = some c := h
    rw [h']
    simp

/-- Claim C1, counterexample: an error whose message contains `502` (and
none of `429`/`500`/`503`/`rate limit`) is retryable according to the claim
but is not retried by the code — the dispatch makes exactly one attempt and
records the error immediately. -/
theorem c1_retry_iff_counterexample :
    claimedRetryable "502 Bad Gateway" = true
      ∧ is_retryable "502 Bad Gateway" = false
      ∧ (dispatchTrace (fun _ => .failure "APIError" "502 Bad Gateway") 300).attempts = 1
      ∧ (dispatchTrace (fun _ => .failure "APIError" "502 Bad Gateway") 300).error =
          some "APIError: Server error (5xx) | 502 Bad Gateway" := by
  refine ⟨by decide, by decide, rfl, rfl⟩

/-- Claim C1, amended: a failed attempt is retried iff its message contains
`429`, `500`, `503`, or `rate limit` (case-insensitive) — `502`-only
messages and connection failures without those substrings are not retried;
a non-retryable first failure yields the classified error result
immediately on the single first attempt, and in all cases at most 4 total
attempts are made. -/
theorem c1_retry_iff_amended (orc : Nat → AttemptOutcome) (tmo : Nat)
    (errType errStr : String) (h : orc 0 = .failure errType errStr) :
    (2 ≤ (dispatchTrace orc tmo).attempts ↔ is_retryable errStr = true)
      ∧ (is_retryable errStr = false →
          dispatchTrace orc tmo = ⟨1, [], "", 0, some (classifyError errType errStr)⟩)
      ∧ (dispatchTrace orc tmo).attempts ≤ 4 := by
  by_cases hr : is_retryable errStr
  · have h2 : dispatchTrace orc tmo =
        ⟨(retryLoop orc tmo 1 2).attempts + 1, 2 ^ 0 :: (retryLoop orc tmo 1 2).sleeps,
          (retryLoop orc tmo 1 2).raw_response, (retryLoop orc tmo 1 2).cost,
          (retryLoop orc tmo 1 2).error⟩ := by
      simp [dispatchTrace, max_retries, retryLoop, h, hr]
    refine ⟨?_, fun hf => by simp [hf] at hr, ?_⟩
    · simp only [h2, hr, iff_true]
      have := one_le_retryLoop_attempts orc tmo 2 1
      omega
    · simp only [h2]
      have := retryLoop_attempts_le orc tmo 2 1
      omega
  · have h2 : dispatchTrace orc tmo =
        ⟨1, [], "", 0, some (classifyError errType errStr)⟩ := by
      simp [dispatchTrace, max_retries, retryLoop, h, hr]
    refine ⟨?_, fun _ => h2, ?_⟩
    · simp [h2, hr]
    · simp [h2]

/-- Witness for C1 (amended) at an oracle that always fails with message
`503`. -/
theorem c1_retry_iff_amended_witness :
    (2 ≤ (dispatchTrace (fun _ => .failure "E" "503") 300).attempts ↔
        is_retryable "503" = true)
      ∧ (is_retryable "503" = false →
          dispatchTrace (fun _ => .failure "E" "503") 300 =
            ⟨1, [], "", 0, some (classifyError "E" "503")⟩)
      ∧ (dispatchTrace (fun _ => .failure "E" "503") 300).attempts ≤ 4 :=
  c1_retry_iff_amended (fun _ => .failure "E" "503") 300 "E" "503" rfl

/-- Claim C6: a timeout on the first attempt is not retried and produces a
`QuestionResult` with `error = "Timeout after Ns"`, `is_correct = false`,
zero cost and empty raw response; the dispatch returns this result rather
than aborting the run. -/
theorem c6_timeout_result (q : Question) (orc : Nat → AttemptOutcome) (tmo : Nat)
    (h : orc 0 = .timeout) :
    evaluate_question q orc tmo =
        { question_id := q.id, task_type := q.task_type,
          model_answer := parse_response "" q.task_type,
          correct_answer := correctAnswerOf q,
          is_correct := false, cost_usd := 0, raw_response := "",
          error := some ("Timeout after " ++ toString tmo ++ "s") }
      ∧ (dispatchTrace orc tmo).attempts = 1 := by
  have h2 : dispatchTrace orc tmo =
      ⟨1, [], "", 0, some ("Timeout after " ++ toString tmo ++ "s")⟩ := by
    simp [dispatchTrace, max_retries, retryLoop, h]
  constructor
  · simp [evaluate_question, h2]
  · simp [h2]

/-- Witness for C6: a concrete MCQ question whose first attempt times out at
the default 300-second timeout. -/
theorem c6_timeout_result_witness :
    evaluate_question exampleQ1 (fun _ => .timeout) 300 =
        { question_id := exampleQ1.id, task_type := exampleQ1.task_type,
          model_answer := parse_response "" exampleQ1.task_type,
          correct_answer := correctAnswerOf exampleQ1,
          is_correct := false, cost_usd := 0, raw_response := "",
          error := some ("Timeout after " ++ toString 300 ++ "s") }
      ∧ (dispatchTrace (fun _ => .timeout) 300).attempts = 1 :=
  c6_timeout_result exampleQ1 (fun _ => .timeout) 300 rfl

/-- Claim C7: a model client that always raises an error containing `429`
causes exactly 4 invocation attempts, with sleeps of `2^0`, `2^1`, `2^2`
seconds between consecutive attempts, and a non-empty error annotation. -/
theorem c7_retry_ceiling (orc : Nat → AttemptOutcome) (tmo : Nat)
    (errType errStr : String) (horc : ∀ n, orc n = .failure errType errStr)
    (h429 : strContainsSub errStr "429" = true) :
    (dispatchTrace orc tmo).attempts = 4
      ∧ (dispatchTrace orc tmo).sleeps = [1, 2, 4]
      ∧ ∃ e, (dispatchTrace orc tmo).error = some e ∧ e ≠ "" := by
  have hr : is_retryable errStr = true := by simp [is_retryable, h429]
  have h2 : dispatchTrace orc tmo =
      ⟨4, [2 ^ 0, 2 ^ 1, 2 ^ 2], "", 0, some (classifyError errType errStr)⟩ := by
    simp [dispatchTrace, max_retries, retryLoop, horc 0, horc 1, horc 2, horc 3, hr]
  refine ⟨by simp [h2], by simp [h2], classifyError errType errStr, by simp [h2], ?_⟩
  have hcl : classifyError errType errStr =
      errType ++ ": Rate limit (429) | " ++ pyTake 250 errStr := by
    simp [classifyError, h429]
  intro hemp
  have hlen := congrArg String.length hemp
  rw [hcl] at hlen
  have hmid : (": Rate limit (429) | " : String).length = 21 := by decide
  simp [String.length_append, hmid] at hlen

/-- Witness for C7 at a client that always raises `Error code: 429`. -/
theorem c7_retry_ceiling_witness :
    (dispatchTrace (fun _ => .failure "APIError" "Error code: 429") 300).attempts = 4
      ∧ (dispatchTrace (fun _ => .failure "APIError" "Error code: 429") 300).sleeps = [1, 2, 4]
      ∧ ∃ e, (dispatchTrace (fun _ => .failure "APIError" "Error code: 429") 300).error =
          some e ∧ e ≠ "" :=
  c7_retry_ceiling (fun _ => .failure "APIError" "Error code: 429") 300
    "APIError" "Error code: 429" (fun _ => rfl) (by decide)

lemma saveRefused_iff (r : EvaluationResult) :
    saveRefused r = true ↔
      (r.error_count : ℚ) / (r.total_questions : ℚ) > MAX_ERROR_RATE := by
  simp only [saveRefused, Bool.and_eq_true, decide_eq_true_eq]
  constructor
  · rintro ⟨-, h⟩; exact h
  · intro h
    refine ⟨?_, h⟩
    rcases Nat.eq_zero_or_pos r.total_questions with h0 | h0
    · rw [h0] at h
      simp [MAX_ERROR_RATE] at h
      norm_num at h
    · exact h0

/-- Claim C5: the result sink refuses exactly when
`error_count / total_questions > 0.20`, leaving the directory unchanged on
refusal and otherwise writing (and overwriting) the file named by the model
short-name; `total_questions = 100` with `error_count = 21` is refused
while `error_count = 20` is written. -/
theorem c5_error_rate_gate (r : EvaluationResult) (dir : ResultDir) :
    ((save_results r dir).1 = none ↔
        (r.error_count : ℚ) / (r.total_questions : ℚ) > MAX_ERROR_RATE)
      ∧ (save_results r dir).2 = (if saveRefused r then dir
          else fun name => if name = resultFileName r.model_name then some r else dir name)
      ∧ (save_results er100e21 dir).1 = none
      ∧ (save_results er100e21 dir).2 = dir
      ∧ (save_results er100e20 dir).1 = some (resultFileName er100e20.model_name)
      ∧ (save_results er100e20 dir).2 (resultFileName er100e20.model_name) = some er100e20 := by
  have h21 : saveRefused er100e21 = true := by
    simp [saveRefused, er100e21, MAX_ERROR_RATE]
    norm_num
  have h20 : saveRefused er100e20 = false := by
    simp [saveRefused, er100e20, MAX_ERROR_RATE]
    norm_num
  refine ⟨?_, ?_, by simp [save_results, h21], by simp [save_results, h21],
    by simp [save_results, h20], by simp [save_results, h20]⟩
  · rw [← saveRefused_iff]
    cases hsr : saveRefused r <;> simp [save_results, hsr]
  · cases hsr : saveRefused r <;> simp [save_results, hsr]

/-- Claim C2, counterexample: a completed resumed run on questions `1`, `2`
whose checkpoint already holds question `2` assembles its results as
`[2, 1]`, and the sink persists that list verbatim — the persisted results
list of this completed run is not in ascending numeric question-id order. -/
theorem c2_sorted_persistence_counterexample :
    resultIds exampleAssembled = ["2", "1"]
      ∧ sortedByQid exampleAssembled = false
      ∧ (save_results exampleER emptyDir).1 = some (resultFileName exampleER.model_name)
      ∧ (save_results exampleER emptyDir).2 (resultFileName exampleER.model_name) =
          some exampleER
      ∧ exampleER.results = exampleAssembled := by
  have h : saveRefused exampleER = false := by
    simp [saveRefused, exampleER, MAX_ERROR_RATE]
  refine ⟨rfl, rfl, by simp [save_results, h], by simp [save_results, h], rfl⟩

/-- Claim C2, amended: neither `run` nor `save_results` sorts — an accepted
result is persisted with its results list verbatim, in assembly order
(checkpoint-resumed entries first, then completion order), so ascending
numeric question-id order is not guaranteed; the sort-by-numeric-id exists
only in separate CLI re-evaluation flows and `scripts/resort_json.py`. -/
theorem c2_sorted_persistence_amended (er : EvaluationResult) (dir : ResultDir)
    (h : saveRefused er = false) :
    (save_results er dir).1 = some (resultFileName er.model_name)
      ∧ ∃ stored, (save_results er dir).2 (resultFileName er.model_name) = some stored
          ∧ stored.results = er.results := by
  refine ⟨by simp [save_results, h], er, by simp [save_results, h], rfl⟩

/-- Witness for C2 (amended) at a concrete accepted result. -/
theorem c2_sorted_persistence_amended_witness :
    (save_results exampleER emptyDir).1 = some (resultFileName exampleER.model_name)
      ∧ ∃ stored, (save_results exampleER emptyDir).2 (resultFileName exampleER.model_name) =
          some stored ∧ stored.results = exampleER.results :=
  c2_sorted_persistence_amended exampleER emptyDir
    (by simp [saveRefused, exampleER, MAX_ERROR_RATE])

lemma assembled_ids_perm (qs : List Question) (ckpt : List QuestionResult)
    (evalF : Question → QuestionResult)
    (hq : (questionIds qs).Nodup)
    (hck : (checkpointIds ckpt).Nodup)
    (hsub : ∀ x ∈ checkpointIds ckpt, x ∈ questionIds qs)
    (hev : ∀ q, (evalF q).question_id = q.id) :
    (resultIds (runAssembledResults qs ckpt evalF)).Perm (questionIds qs) := by
  have h1 : resultIds (runAssembledResults qs ckpt evalF) =
      checkpointIds ckpt ++ (pendingOf qs (checkpointIds ckpt)).map Question.id := by
    simp only [resultIds, runAssembledResults, List.map_append, List.map_map, checkpointIds]
    congr 1
    exact List.map_congr_left (fun q _ => hev q)
  rw [h1]
  have hfilter : (checkpointIds ckpt).Perm
      ((qs.filter (fun q => (checkpointIds ckpt).contains q.id)).map Question.id) := by
    have hnd : ((qs.filter (fun q => (checkpointIds ckpt).contains q.id)).map Question.id).Nodup := by
      have hsl : List.Sublist
          ((qs.filter (fun q => (checkpointIds ckpt).contains q.id)).map Question.id)
          (questionIds qs) := (List.filter_sublist qs).map Question.id
      exact hq.sublist hsl
    refine List.perm_of_nodup_nodup_toFinset_eq hck hnd (List.toFinset.ext ?_)
    intro x
    constructor
    · intro hx
      rcases List.mem_map.1 (hsub x hx) with ⟨q, hqmem, rfl⟩
      exact List.mem_map_of_mem _ (List.mem_filter.2 ⟨hqmem, by
        simpa [List.elem_iff] using hx⟩)
    · intro hx
      rcases List.mem_map.1 hx with ⟨q, hqmem, rfl⟩
      have := (List.mem_filter.1 hqmem).2
      simpa [List.elem_iff] using this
  refine List.Perm.trans (hfilter.append_right _) ?_
  have hp := (List.filter_append_perm
    (fun q => (checkpointIds ckpt).contains q.id) qs).map Question.id
  simpa [pendingOf, List.map_append, questionIds] using hp

/-- Claim C4: whenever a run completes (under any completion order of the
concurrent dispatches), given pairwise-distinct dataset question ids and a
checkpoint whose ids all occur in the dataset, the final result list has
exactly one entry per dataset question: its length equals the dataset's,
and its question ids are pairwise distinct and all present in the
dataset. -/
theorem c4_run_completeness (qs : List Question) (ckpt : List QuestionResult)
    (evalF : Question → QuestionResult) (final : List QuestionResult)
    (hq : (questionIds qs).Nodup)
    (hck : (checkpointIds ckpt).Nodup)
    (hsub : ∀ r ∈ ckpt, r.question_id ∈ questionIds qs)
    (hev : ∀ q, (evalF q).question_id = q.id)
    (hperm : final.Perm (runAssembledResults qs ckpt evalF)) :
    final.length = qs.length ∧ (resultIds final).Nodup
      ∧ ∀ r ∈ final, r.question_id ∈ questionIds qs := by
  have hsub' : ∀ x ∈ checkpointIds ckpt, x ∈ questionIds qs := by
    intro x hx
    rcases List.mem_map.1 hx with ⟨r, hr, rfl⟩
    exact hsub r hr
  have hids : (resultIds final).Perm (questionIds qs) :=
    (hperm.map QuestionResult.question_id).trans
      (assembled_ids_perm qs ckpt evalF hq hck hsub' hev)
  refine ⟨?_, hids.nodup_iff.2 hq, ?_⟩
  · have hlen := hids.length_eq
    simpa [resultIds, questionIds] using hlen
  · intro r hr
    exact hids.subset (List.mem_map_of_mem _ hr)

/-- Witness for C4: the resumed run on questions `1`, `2` with question `2`
checkpointed, taken in its canonical completion order. -/
theorem c4_run_completeness_witness :
    (runAssembledResults [exampleQ1, exampleQ2] [exampleCkptR2] exampleEval).length =
        ([exampleQ1, exampleQ2] : List Question).length
      ∧ (resultIds (runAssembledResults [exampleQ1, exampleQ2] [exampleCkptR2] exampleEval)).Nodup
      ∧ ∀ r ∈ runAssembledResults [exampleQ1, exampleQ2] [exampleCkptR2] exampleEval,
          r.question_id ∈ questionIds [exampleQ1, exampleQ2] :=
  c4_run_completeness [exampleQ1, exampleQ2] [exampleCkptR2] exampleEval
    (runAssembledResults [exampleQ1, exampleQ2] [exampleCkptR2] exampleEval)
    (by decide) (by decide) (by decide) (fun q => rfl) (List.Perm.refl _)

end SlovakBench
